import Mathlib

/-!
Verification of the Perplexica MCP server's request-normalization and
transport layer (`perplexica_mcp_server/models.py` and
`perplexica_mcp_server/client.py`), as a shallow embedding in Lean.

JSON values are modelled by an explicit inductive type; the outcome of the
external `json.loads` on a raw text is carried alongside the raw text
(`Except String Json`, the error case holding the exception's message),
since the JSON parser itself is an external library.  Python `None` is
modelled by `Option.none`; pydantic's `exclude_none` dumping is modelled by
encoders that omit `none` fields from the emitted JSON object.
-/

namespace Perplexica

/-- JSON values as produced by Python's `json` module (objects keep key
order; the Python dicts involved never carry duplicate keys). -/
inductive Json where
  | null
  | bool (b : Bool)
  | num (n : Int)
  | str (s : String)
  | arr (elems : List Json)
  | obj (fields : List (String × Json))

/-- First-match lookup in a JSON object's field list (Python `dict` access;
the dicts built by the code have unique keys). -/
def jlookup (fields : List (String × Json)) (k : String) : Option Json :=
  match fields with
  | [] => none
  | (k2, v) :: rest => if k2 = k then some v else jlookup rest k

/-- `payload.get (k)` on a JSON object; `none` on non-objects or missing keys. -/
def Json.get? (j : Json) (k : String) : Option Json :=
  match j with
  | .obj fields => jlookup fields k
  | _ => none

/-- `optimizationMode` literal set, models.py lines 35-38. -/
inductive OptimizationMode where
  | speed
  | balanced
  | quality
deriving DecidableEq

/-- `focusMode` literal set, models.py lines 39-46. -/
inductive FocusMode where
  | webSearch
  | academicSearch
  | writingAssistant
  | wolframAlphaSearch
  | youtubeSearch
  | redditSearch
deriving DecidableEq

/-- `ChatModel` (models.py lines 7-17): `provider` required, every other
field `Optional[str]` defaulting to `None`. -/
structure ChatModel where
  provider : String
  model : Option String := none
  name : Option String := none
  customOpenAIBaseURL : Option String := none
  customOpenAIKey : Option String := none
deriving DecidableEq

/-- `EmbeddingModel` (models.py lines 20-28). -/
structure EmbeddingModel where
  provider : String
  model : Option String := none
  name : Option String := none
deriving DecidableEq

/-- Python `a or b` where `a : Optional[str]`: `a` unless `a` is `None` or
the empty string (both falsy), else `b`. -/
def pyStrOr (a : Option String) (b : String) : String :=
  match a with
  | some s => if s = "" then b else s
  | none => b

/-- `ChatModel.get_model_name` (models.py lines 15-17):
`return self.name or self.model or ""`. -/
def ChatModel.get_model_name (c : ChatModel) : String :=
  pyStrOr c.name (pyStrOr c.model "")

/-- `EmbeddingModel.get_model_name` (models.py lines 26-28):
`return self.name or self.model or ""`. -/
def EmbeddingModel.get_model_name (e : EmbeddingModel) : String :=
  pyStrOr e.name (pyStrOr e.model "")

/-- `SearchRequest` (models.py lines 31-53).  Field defaults are the
pydantic defaults: `optimizationMode` defaults to `"balanced"` (not
`None`), `stream` defaults to `False`. -/
structure SearchRequest where
  chatModel : Option ChatModel := none
  embeddingModel : Option EmbeddingModel := none
  optimizationMode : Option OptimizationMode := some .balanced
  focusMode : FocusMode
  query : String
  history : Option (List (String × String)) := none
  systemInstructions : Option String := none
  stream : Option Bool := some false
deriving DecidableEq

/-- `Source` (models.py lines 56-59): `metadata` is an open string-keyed
mapping (`Dict[str, Any]`). -/
structure Source where
  pageContent : String
  metadata : List (String × Json)

/-- `SearchResponse` (models.py lines 62-65). -/
structure SearchResponse where
  message : String
  sources : List Source

/-- `StreamMessage.type` literal set (models.py line 70). -/
inductive StreamType where
  | init
  | sources
  | response
  | done
  | error
deriving DecidableEq

/-- `StreamMessage` (models.py lines 68-71): tag plus opaque payload. -/
structure StreamMessage where
  type : StreamType
  data : Json

/-- `default_output_format` literal set (models.py lines 84-87). -/
inductive OutputFormat where
  | json
  | formatted
deriving DecidableEq

/-- `PerplexicaConfig` (models.py lines 74-87). -/
structure PerplexicaConfig where
  base_url : String := "http://localhost:3000"
  timeout : Nat := 30
  default_chat_model : Option ChatModel := none
  default_embedding_model : Option EmbeddingModel := none
  default_optimization_mode : OptimizationMode := .balanced
  default_output_format : OutputFormat := .json

/-- The defaults block executed at the start of both `search` (client.py
lines 30-38) and `search_stream` (client.py lines 76-84).  A pydantic model
instance defines neither `__bool__` nor `__len__`, so the truthiness test
`if ... and self.config.default_chat_model:` is exactly an `is not None`
test.  The Python code assigns into the caller's request object; the
returned value is the state of that object after the block. -/
def applyDefaults (cfg : PerplexicaConfig) (r : SearchRequest) : SearchRequest :=
  let r1 := if r.chatModel.isNone && cfg.default_chat_model.isSome then
      { r with chatModel := cfg.default_chat_model } else r
  let r2 := if r1.embeddingModel.isNone && cfg.default_embedding_model.isSome then
      { r1 with embeddingModel := cfg.default_embedding_model } else r1
  if r2.optimizationMode.isNone then
    { r2 with optimizationMode := some cfg.default_optimization_mode } else r2

/-- The dict produced by `request.model_dump(exclude_none=True)` (client.py
lines 42 and 90).  An absent key is `none`; keys keep pydantic field order.
The nested model dicts are represented by the model structures themselves,
whose `none` fields are likewise omitted keys. -/
structure RequestData where
  chatModel : Option ChatModel := none
  embeddingModel : Option EmbeddingModel := none
  optimizationMode : Option OptimizationMode := none
  focusMode : FocusMode
  query : String
  history : Option (List (String × String)) := none
  systemInstructions : Option String := none
  stream : Option Bool := none
deriving DecidableEq

/-- `request.model_dump(exclude_none=True)`: field-for-field copy of the
request into the payload dict (`None` fields become absent keys, which
`Option` already represents). -/
def SearchRequest.model_dump (r : SearchRequest) : RequestData :=
  { chatModel := r.chatModel
    embeddingModel := r.embeddingModel
    optimizationMode := r.optimizationMode
    focusMode := r.focusMode
    query := r.query
    history := r.history
    systemInstructions := r.systemInstructions
    stream := r.stream }

/-- Python falsiness of `chat_model.get ("model")` (client.py lines 47 and
53): the key is absent (the field was `None`, dropped by `exclude_none`) or
holds the empty string. -/
def pyFalsyStr (v : Option String) : Bool :=
  match v with
  | none => true
  | some s => s = ""

/-- client.py lines 47-48: `if "name" in chat_model and not
chat_model.get("model"): chat_model["model"] = chat_model["name"]`. -/
def ChatModel.aliasFix (c : ChatModel) : ChatModel :=
  if c.name.isSome && pyFalsyStr c.model then { c with model := c.name } else c

/-- client.py lines 53-54, the same assignment for the embedding model. -/
def EmbeddingModel.aliasFix (e : EmbeddingModel) : EmbeddingModel :=
  if e.name.isSome && pyFalsyStr e.model then { e with model := e.name } else e

/-- The wire-normalization mutation of the dumped payload (client.py lines
44-54).  The guards `if "chatModel" in request_data and
request_data["chatModel"]:` reduce to key presence: a dumped model dict
always contains the required `provider` key, hence is a non-empty, truthy
dict. -/
def normalizeAlias (d : RequestData) : RequestData :=
  { d with
    chatModel := d.chatModel.map ChatModel.aliasFix
    embeddingModel := d.embeddingModel.map EmbeddingModel.aliasFix }

/-! ### JSON encoding of the payload

What `httpx` transmits for `json=request_data`: the dict rendered as a JSON
object, absent keys omitted (never `null`). -/

/-- An optional key-value pair: present keys contribute one field, absent
keys contribute nothing. -/
def optField (k : String) (v : Option Json) : List (String × Json) :=
  match v with
  | some j => [(k, j)]
  | none => []

def OptimizationMode.wire : OptimizationMode → String
  | .speed => "speed"
  | .balanced => "balanced"
  | .quality => "quality"

def FocusMode.wire : FocusMode → String
  | .webSearch => "webSearch"
  | .academicSearch => "academicSearch"
  | .writingAssistant => "writingAssistant"
  | .wolframAlphaSearch => "wolframAlphaSearch"
  | .youtubeSearch => "youtubeSearch"
  | .redditSearch => "redditSearch"

/-- JSON rendering of a chat-model dict, keys in field order, `None` keys
omitted. -/
def ChatModel.encode (c : ChatModel) : Json :=
  .obj ([("provider", .str c.provider)]
    ++ optField "model" (c.model.map .str)
    ++ optField "name" (c.name.map .str)
    ++ optField "customOpenAIBaseURL" (c.customOpenAIBaseURL.map .str)
    ++ optField "customOpenAIKey" (c.customOpenAIKey.map .str))

/-- JSON rendering of an embedding-model dict. -/
def EmbeddingModel.encode (e : EmbeddingModel) : Json :=
  .obj ([("provider", .str e.provider)]
    ++ optField "model" (e.model.map .str)
    ++ optField "name" (e.name.map .str))

/-- History pairs are serialized as two-element arrays. -/
def encodeHistory (h : List (String × String)) : Json :=
  .arr (h.map fun p => .arr [.str p.1, .str p.2])

/-- JSON rendering of the payload dict: keys in pydantic field order,
absent keys omitted entirely. -/
def RequestData.encode (d : RequestData) : Json :=
  .obj (optField "chatModel" (d.chatModel.map ChatModel.encode)
    ++ optField "embeddingModel" (d.embeddingModel.map EmbeddingModel.encode)
    ++ optField "optimizationMode" (d.optimizationMode.map fun m => .str m.wire)
    ++ [("focusMode", .str d.focusMode.wire), ("query", .str d.query)]
    ++ optField "history" (d.history.map encodeHistory)
    ++ optField "systemInstructions" (d.systemInstructions.map .str)
    ++ optField "stream" (d.stream.map .bool))

/-- The JSON body posted by the one-shot `search` (client.py lines 42-58):
dump with `exclude_none`, apply the alias mutation, transmit. -/
def search_payload (cfg : PerplexicaConfig) (r : SearchRequest) : Json :=
  (normalizeAlias (applyDefaults cfg r).model_dump).encode

/-- The JSON body posted by `search_stream` (client.py line 90):
`{**request.model_dump(exclude_none=True), "stream": True}` — the dict
splat overwrites the `stream` entry (or appends it; `stream` is the last
pydantic field, so either way it sits at the end), with no alias mutation.
-/
def search_stream_payload (cfg : PerplexicaConfig) (r : SearchRequest) : Json :=
  ({ (applyDefaults cfg r).model_dump with stream := some true } : RequestData).encode

/-! ### HTTP exchange model

`json.loads` and the HTTP stack are external; an exchange outcome carries
the raw response text together with what `json.loads` returns on it
(`Except String Json`, the error case holding the decode exception's
message). -/

/-- A buffered HTTP response body: `response.text` plus the outcome of
`json.loads` on it. -/
structure HttpBody where
  raw : String
  parsed : Except String Json

/-- Outcome of one HTTP request: either the server responded (any status),
or an `httpx.RequestError` was raised (DNS failure, connection refusal,
timeout, ...), carrying its message. -/
inductive HttpOutcome where
  | response (status : Nat) (body : HttpBody)
  | requestError (message : String)

/-- `httpx.Response.raise_for_status` raises exactly when the status is not
a success status (200-299). -/
def is2xx (status : Nat) : Bool :=
  200 ≤ status && status < 300

/-- Pydantic construction `Source(**elem)` (models.py lines 56-59):
requires a JSON object with a string `pageContent` and an object-valued
`metadata`; extra keys are ignored; `none` models the raised
`ValidationError`. -/
def mkSource (j : Json) : Option Source :=
  match j with
  | .obj fields =>
    match jlookup fields "pageContent", jlookup fields "metadata" with
    | some (.str pc), some (.obj md) => some { pageContent := pc, metadata := md }
    | _, _ => none
  | _ => none

/-- Pydantic construction `SearchResponse(**data)` (client.py line 64):
`data` must be a JSON object with a string `message` and a `sources` array
whose every element validates as a `Source`; anything else raises
(`ValidationError`, or `TypeError` on a non-object splat), modelled by
`none`. -/
def mkSearchResponse (j : Json) : Option SearchResponse :=
  match j with
  | .obj fields =>
    match jlookup fields "message", jlookup fields "sources" with
    | some (.str m), some (.arr elems) =>
      match elems.mapM mkSource with
      | some srcs => some { message := m, sources := srcs }
      | none => none
    | _, _ => none
  | _ => none

/-- How one call to the one-shot `search` terminates, after the
`try/except` of client.py lines 40-71. -/
inductive SearchOutcome where
  /-- Normal return of a `SearchResponse`. -/
  | ok (res : SearchResponse)
  /-- `except httpx.HTTPStatusError` (client.py lines 66-67):
  `Exception(f"Perplexica API error: {status} - {body}")`. -/
  | apiError (message : String)
  /-- `except httpx.RequestError` (client.py lines 68-69):
  `Exception(f"Network error connecting to Perplexica: {e}")`. -/
  | networkError (message : String)
  /-- `except json.JSONDecodeError` (client.py lines 70-71):
  `Exception(f"Invalid JSON response from Perplexica: {e}")`. -/
  | invalidJson (message : String)
  /-- An exception the `except` clauses do not catch — a pydantic
  `ValidationError` (or `TypeError`) from `SearchResponse(**data)`
  propagates raw to the caller. -/
  | uncaught (message : String)

/-- The response half of the one-shot `search` (client.py lines 56-71):
`raise_for_status`, then `response.json()`, then `SearchResponse(**data)`,
with the three `except` clauses. -/
def searchExchange (http : HttpOutcome) : SearchOutcome :=
  match http with
  | .requestError msg => .networkError ("Network error connecting to Perplexica: " ++ msg)
  | .response status body =>
    if is2xx status then
      match body.parsed with
      | .error msg => .invalidJson ("Invalid JSON response from Perplexica: " ++ msg)
      | .ok j =>
        match mkSearchResponse j with
        | some res => .ok res
        | none => .uncaught "pydantic validation of SearchResponse failed"
    else
      .apiError ("Perplexica API error: " ++ toString status ++ " - " ++ body.raw)

/-- One whole call to `PerplexicaClient.search` (client.py lines 27-71):
the payload it posts and how it terminates, given the HTTP outcome. -/
structure SearchCall where
  payload : Json
  outcome : SearchOutcome

def search (cfg : PerplexicaConfig) (r : SearchRequest) (http : HttpOutcome) : SearchCall :=
  { payload := search_payload cfg r, outcome := searchExchange http }

/-! ### Stream decoding -/

/-- ASCII whitespace stripped by Python's `str.strip()` (Python also strips
a few Unicode space characters; the lines at issue are ASCII JSON). -/
def pyIsSpace (c : Char) : Bool :=
  c == ' ' || c == '\t' || c == '\n' || c == '\x0d' || c == '\x0b' || c == '\x0c'

/-- Python `line.strip()`. -/
def pyStrip (s : String) : String :=
  ⟨((s.data.dropWhile pyIsSpace).reverse.dropWhile pyIsSpace).reverse⟩

/-- One line of the streaming response body: the raw text plus the outcome
of `json.loads` on it. -/
structure Line where
  raw : String
  parsed : Except String Json

/-- Tag strings accepted by the `StreamMessage.type` literal (models.py
line 70). -/
def streamTypeOfString (s : String) : Option StreamType :=
  if s = "init" then some .init
  else if s = "sources" then some .sources
  else if s = "response" then some .response
  else if s = "done" then some .done
  else if s = "error" then some .error
  else none

/-- Pydantic construction `StreamMessage(**data)` (client.py line 99):
`data` must be a JSON object whose `type` is one of the five tag strings
and which has a `data` key (`data: Any` has no default, so in pydantic v2
it is required); extra keys are ignored; `none` models the raised
`ValidationError` (or `TypeError` on a non-object splat). -/
def mkStreamMessage (j : Json) : Option StreamMessage :=
  match j with
  | .obj fields =>
    match jlookup fields "type", jlookup fields "data" with
    | some (.str t), some d =>
      match streamTypeOfString t with
      | some tag => some { type := tag, data := d }
      | none => none
    | _, _ => none
  | _ => none

/-- The line loop of `search_stream` (client.py lines 95-101): skip
whitespace-only lines; on `json.JSONDecodeError`, `continue`; any other
exception — in particular a `ValidationError` from
`StreamMessage(**data)` — is not caught, so the generator stops after the
messages yielded so far and raises.  Result: the yielded messages, and
whether the loop ended by an uncaught exception. -/
def decodeStream (lines : List Line) : List StreamMessage × Bool :=
  match lines with
  | [] => ([], false)
  | l :: rest =>
    if pyStrip l.raw = "" then decodeStream rest
    else
      match l.parsed with
      | .error _ => decodeStream rest
      | .ok j =>
        match mkStreamMessage j with
        | some m =>
          let (ms, crashed) := decodeStream rest
          (m :: ms, crashed)
        | none => ([], true)

/-- What a single line contributes when it does not crash the loop:
nothing, or one message. -/
def lineYield (l : Line) : Option StreamMessage :=
  if pyStrip l.raw = "" then none
  else
    match l.parsed with
    | .error _ => none
    | .ok j => mkStreamMessage j

/-- A line crashes the loop exactly when it is non-blank, `json.loads`
succeeds, and `StreamMessage(**data)` raises. -/
def lineCrashes (l : Line) : Bool :=
  if pyStrip l.raw = "" then false
  else
    match l.parsed with
    | .error _ => false
    | .ok j => (mkStreamMessage j).isNone

/-! ### Auxiliary queries -/

/-- The shape of a GET issued by the client: the path, and the per-request
timeout override if one is passed (`None` means the client-level timeout —
the configured `cfg.timeout` — applies). -/
structure GetRequest where
  path : String
  timeoutOverride : Option Nat
deriving DecidableEq

/-- The GET issued by `health_check` (client.py line 122):
`self.client.get("/api/models", timeout=5.0)` — a fixed 5-second timeout,
whatever the configured `cfg.timeout` is. -/
def health_check_request (_cfg : PerplexicaConfig) : GetRequest :=
  { path := "/api/models", timeoutOverride := some 5 }

/-- `health_check` (client.py lines 119-125): `status_code == 200` on any
response (the body is never read, no `raise_for_status`); `except
Exception: return False` turns every raised error into `false`.  The
function is total: no outcome escapes as an exception. -/
def health_check (http : HttpOutcome) : Bool :=
  match http with
  | .response status _ => status == 200
  | .requestError _ => false

/-! ### Object-level model of the defaults block (aliasing)

The defaults block assigns `self.config.default_chat_model` — a plain
attribute assignment of the very object held by the config, not a copy —
into the caller's request object.  To state that, model selections live in
an explicit heap and the request/config hold references into it. -/

/-- Heap of model-selection objects; a reference is an index. -/
structure Heap where
  chatCells : List ChatModel
  embCells : List EmbeddingModel
deriving DecidableEq

/-- The caller's `SearchRequest` object, holding references to its
selection objects (only the fields the defaults block touches). -/
structure SearchRequestObj where
  chatModel : Option Nat := none
  embeddingModel : Option Nat := none
  optimizationMode : Option OptimizationMode := some .balanced
deriving DecidableEq

/-- The `PerplexicaConfig` object, holding references to its default
selection objects. -/
structure ConfigObj where
  default_chat_model : Option Nat := none
  default_embedding_model : Option Nat := none
  default_optimization_mode : OptimizationMode := .balanced
deriving DecidableEq

/-- The defaults block of client.py lines 30-38 (identical in
`search_stream`, lines 76-84), at object level: each branch stores the
config's reference into the caller's request object and allocates nothing.
Returns the heap and the caller's request object as they stand after the
block. -/
def applyDefaultsObj (h : Heap) (cfg : ConfigObj) (r : SearchRequestObj) :
    Heap × SearchRequestObj :=
  let r1 := if r.chatModel.isNone && cfg.default_chat_model.isSome then
      { r with chatModel := cfg.default_chat_model } else r
  let r2 := if r1.embeddingModel.isNone && cfg.default_embedding_model.isSome then
      { r1 with embeddingModel := cfg.default_embedding_model } else r1
  let r3 := if r2.optimizationMode.isNone then
      { r2 with optimizationMode := some cfg.default_optimization_mode } else r2
  (h, r3)

/-! ## Theorems -/

/-- Helper: the alias assignment of client.py lines 47-48 is idempotent on
a chat-model dict. -/
theorem chatModel_aliasFix_idem (c : ChatModel) : c.aliasFix.aliasFix = c.aliasFix := by
  obtain ⟨p, m, n, u, k⟩ := c
  rcases n with _ | s <;> rcases m with _ | t <;>
    simp [ChatModel.aliasFix, pyFalsyStr] <;> split <;> simp_all [ChatModel.aliasFix, pyFalsyStr]

/-- Helper: same for an embedding-model dict. -/
theorem embeddingModel_aliasFix_idem (e : EmbeddingModel) : e.aliasFix.aliasFix = e.aliasFix := by
  obtain ⟨p, m, n⟩ := e
  rcases n with _ | s <;> rcases m with _ | t <;>
    simp [EmbeddingModel.aliasFix, pyFalsyStr] <;> split <;> simp_all [EmbeddingModel.aliasFix, pyFalsyStr]

/-- Helper: the whole payload mutation is idempotent on any payload dict. -/
theorem normalizeAlias_idem (d : RequestData) :
    normalizeAlias (normalizeAlias d) = normalizeAlias d := by
  obtain ⟨cm, em, om, fm, q, hi, si, st⟩ := d
  rcases cm with _ | c <;> rcases em with _ | e <;>
    simp [normalizeAlias, chatModel_aliasFix_idem, embeddingModel_aliasFix_idem]

/-- C1: Default Resolver precedence: for each of the chat-model selection,
the embedding-model selection and the optimization mode, a field present in
the caller's request survives resolution unchanged; an absent field takes
the config default (for the model selections this means it also stays
absent when the config has no default; the config's optimization mode is
always present). -/
theorem default_resolver_precedence (cfg : PerplexicaConfig) (r : SearchRequest) :
    (applyDefaults cfg r).chatModel =
      (match r.chatModel with
       | some c => some c
       | none => cfg.default_chat_model)
  ∧ (applyDefaults cfg r).embeddingModel =
      (match r.embeddingModel with
       | some e => some e
       | none => cfg.default_embedding_model)
  ∧ (applyDefaults cfg r).optimizationMode =
      (match r.optimizationMode with
       | some m => some m
       | none => some cfg.default_optimization_mode) := by
  obtain ⟨cm, em, om, fm, q, hi, si, st⟩ := r
  rcases cm with _ | c <;> rcases em with _ | e <;> rcases om with _ | m <;>
    rcases hdc : cfg.default_chat_model with _ | dc <;>
    rcases hde : cfg.default_embedding_model with _ | de <;>
    simp [applyDefaults, hdc, hde]

/-- C2: Wire Normalizer idempotence: for every resolved request, applying
the payload mutation of client.py lines 44-54 twice to the dumped payload
yields the same payload as applying it once. -/
theorem wire_normalizer_idempotent (cfg : PerplexicaConfig) (r : SearchRequest) :
    normalizeAlias (normalizeAlias (applyDefaults cfg r).model_dump) =
      normalizeAlias (applyDefaults cfg r).model_dump :=
  normalizeAlias_idem _

/-- C3 counterexample: a selection with BOTH identifiers set — `model` set
to the empty string, `name` set to `"bge-small"` — is not left untouched:
`not chat_model.get("model")` treats the empty string as missing, so the
normalizer overwrites `model` with `"bge-small"`. -/
theorem effective_name_untouched_cex :
    (normalizeAlias
        { embeddingModel := some { provider := "transformers", model := some "", name := some "bge-small" }
          focusMode := .webSearch
          query := "q" }).embeddingModel =
      some { provider := "transformers", model := some "bge-small", name := some "bge-small" }
  ∧ (some "bge-small" : Option String) ≠ some "" := by
  refine ⟨rfl, by decide⟩

/-- C3 amended: per model selection in the payload, the normalized `model`
field equals the `name` field whenever `name` is set and `model` is unset
OR empty; a set, non-empty `model` is left untouched; the `name` field
itself is never modified. -/
theorem effective_name_resolution (d : RequestData) :
    (normalizeAlias d).chatModel.map ChatModel.model =
      d.chatModel.map (fun c =>
        if c.name.isSome = true ∧ (c.model = none ∨ c.model = some "") then c.name else c.model)
  ∧ (normalizeAlias d).chatModel.map ChatModel.name = d.chatModel.map ChatModel.name
  ∧ (normalizeAlias d).embeddingModel.map EmbeddingModel.model =
      d.embeddingModel.map (fun e =>
        if e.name.isSome = true ∧ (e.model = none ∨ e.model = some "") then e.name else e.model)
  ∧ (normalizeAlias d).embeddingModel.map EmbeddingModel.name = d.embeddingModel.map EmbeddingModel.name := by
  obtain ⟨cm, em, om, fm, q, hi, si, st⟩ := d
  refine ⟨?_, ?_, ?_, ?_⟩ <;> rcases cm with _ | c <;> rcases em with _ | e <;>
    simp [normalizeAlias, ChatModel.aliasFix, EmbeddingModel.aliasFix, pyFalsyStr] <;>
  · first
    | (obtain ⟨p, m, n, u, k⟩ := c
       rcases n with _ | s <;> rcases m with _ | t <;>
         simp [pyFalsyStr] <;> split <;> simp_all)
    | (obtain ⟨p, m, n⟩ := e
       rcases n with _ | s <;> rcases m with _ | t <;>
         simp [pyFalsyStr] <;> split <;> simp_all)

/-- C4 amended: over a line sequence in which no line crashes the loop —
every line is blank, or fails `json.loads`, or carries a JSON object that
validates as a `StreamMessage` — the stream yields exactly the well-formed
lines' messages, in their original relative order, and terminates normally:
blank and undecodable lines are discarded silently.  (A line whose JSON
decodes but fails `StreamMessage` validation is NOT tolerated: it raises
out of the loop; see the counterexample.) -/
theorem streaming_resilience (lines : List Line)
    (h : ∀ l ∈ lines, lineCrashes l = false) :
    decodeStream lines = (lines.filterMap lineYield, false) := by
  induction lines with
  | nil => rfl
  | cons l rest ih =>
    have hl := h l (List.mem_cons_self _ _)
    have ih2 := ih fun l2 hm => h l2 (List.mem_cons_of_mem _ hm)
    unfold lineCrashes at hl
    by_cases hb : pyStrip l.raw = ""
    · simp [decodeStream, hb, ih2, List.filterMap_cons, lineYield]
    · simp only [hb, if_neg, ite_false] at hl
      match hp : l.parsed with
      | .error e =>
        simp [decodeStream, hb, hp, ih2, List.filterMap_cons, lineYield]
      | .ok j =>
        rw [hp] at hl
        match hm : mkStreamMessage j with
        | some m =>
          simp [decodeStream, hb, hp, hm, ih2, List.filterMap_cons, lineYield]
        | none => simp [hm] at hl

/-- The four lines of spec Scenario D: a well-formed `init` line, a
non-JSON line, a well-formed `response` line, and a blank line. -/
def scenarioDLines : List Line :=
  [{ raw := "\x7b\"type\": \"init\", \"data\": null\x7d"
     parsed := .ok (.obj [("type", .str "init"), ("data", .null)]) },
   { raw := "not-json"
     parsed := .error "Expecting value: line 1 column 1 (char 0)" },
   { raw := "\x7b\"type\": \"response\", \"data\": \"hi\"\x7d"
     parsed := .ok (.obj [("type", .str "response"), ("data", .str "hi")]) },
   { raw := ""
     parsed := .error "Expecting value: line 1 column 1 (char 0)" }]

/-- C4 witness (spec Scenario D): the four lines decode to exactly the two
messages `init` and `response`, in order, with the loop ending normally. -/
theorem streaming_resilience_witness :
    decodeStream scenarioDLines =
      ([{ type := .init, data := .null }, { type := .response, data := .str "hi" }], false) :=
  (streaming_resilience scenarioDLines (by decide)).trans rfl

/-- Three lines: a well-formed `init` line, a line that is VALID JSON but
not a valid `StreamMessage` (unknown tag `"bogus"`), and a well-formed
`done` line. -/
def bogusTagLines : List Line :=
  [{ raw := "\x7b\"type\": \"init\", \"data\": null\x7d"
     parsed := .ok (.obj [("type", .str "init"), ("data", .null)]) },
   { raw := "\x7b\"type\": \"bogus\", \"data\": null\x7d"
     parsed := .ok (.obj [("type", .str "bogus"), ("data", .null)]) },
   { raw := "\x7b\"type\": \"done\", \"data\": null\x7d"
     parsed := .ok (.obj [("type", .str "done"), ("data", .null)]) }]

/-- C4 counterexample: `bogusTagLines` holds N = 2 well-formed lines
around one malformed (JSON-decodable, schema-invalid) line, but the stream
does NOT yield both messages: only `json.JSONDecodeError` is caught in
client.py lines 97-101, so the pydantic `ValidationError` raised on the
middle line terminates the stream after the first message. -/
theorem streaming_resilience_cex :
    (decodeStream bogusTagLines).1 ≠
      [{ type := .init, data := .null }, { type := .done, data := .null }] := by
  intro hcl
  have h1 : (decodeStream bogusTagLines).1 = [{ type := .init, data := .null }] := rfl
  rw [h1] at hcl
  have hlen := congrArg List.length hcl
  simp only [List.length_cons, List.length_nil] at hlen
  omega

/-- C5 counterexample: a 200 response whose body is not valid JSON.  The
claim says a malformed body yields `false`; but `health_check` never reads
the body (client.py lines 122-123 test only `status_code == 200`), so it
returns `true`. -/
theorem health_check_malformed_body_cex :
    health_check (.response 200
      { raw := "not-json", parsed := .error "Expecting value: line 1 column 1 (char 0)" }) = true :=
  rfl

/-- C5 amended: `health_check` is total (the model returns a boolean on
every HTTP outcome — `except Exception: return False` swallows every
raised error): a connection-level failure or timeout yields `false`; a
non-2xx status yields `false`; `true` is returned only for a 2xx status
(in fact exactly 200); the result never depends on the response body, so a
malformed body under a 2xx status still yields `true`; and the GET uses a
fixed 5-second timeout regardless of the configured request timeout. -/
theorem health_check_never_raises (cfg : PerplexicaConfig) (status : Nat)
    (body body2 : HttpBody) (msg : String) :
    health_check (.requestError msg) = false
  ∧ (is2xx status = false → health_check (.response status body) = false)
  ∧ (health_check (.response status body) = true → is2xx status = true)
  ∧ health_check (.response status body) = health_check (.response status body2)
  ∧ health_check_request cfg = { path := "/api/models", timeoutOverride := some 5 }
  ∧ (∀ t, health_check_request { cfg with timeout := t } = health_check_request cfg) := by
  refine ⟨rfl, ?_, ?_, rfl, rfl, fun t => rfl⟩
  · intro h2
    have hne : status ≠ 200 := fun h200 => by rw [h200] at h2; simp [is2xx] at h2
    simp [health_check, beq_eq_false_iff_ne, hne]
  · intro htrue
    simp only [health_check, beq_iff_eq] at htrue
    rw [htrue]
    rfl

/-- C5 witness: a 503 response yields `false` (its hypothesis
`is2xx 503 = false` discharged by evaluation), and a `health_check` that
returned `true` on a 200 response indeed had a 2xx status. -/
theorem health_check_never_raises_witness :
    health_check (.response 503 { raw := "Service Unavailable", parsed := .error "Expecting value" }) = false
  ∧ is2xx 200 = true := by
  constructor
  · exact (health_check_never_raises {} 503
      { raw := "Service Unavailable", parsed := .error "Expecting value" }
      { raw := "", parsed := .error "" } "boom").2.1 rfl
  · exact (health_check_never_raises {} 200
      { raw := "ok", parsed := .ok (.obj []) }
      { raw := "", parsed := .error "" } "boom").2.2.1 rfl

/-- C6: one-shot failure mapping: every non-2xx response terminates the
call with the protocol-failure message carrying the status code and the
raw response body; every connection-level failure terminates it with the
transport-failure message; a 2xx response whose body fails `json.loads`
terminates it with the decode-failure message. -/
theorem one_shot_failure_mapping (status : Nat) (body : HttpBody) (emsg dmsg : String) :
    (is2xx status = false →
      searchExchange (.response status body) =
        .apiError ("Perplexica API error: " ++ toString status ++ " - " ++ body.raw))
  ∧ searchExchange (.requestError emsg) =
      .networkError ("Network error connecting to Perplexica: " ++ emsg)
  ∧ (is2xx status = true → body.parsed = .error dmsg →
      searchExchange (.response status body) =
        .invalidJson ("Invalid JSON response from Perplexica: " ++ dmsg)) := by
  refine ⟨?_, rfl, ?_⟩
  · intro hbad
    simp [searchExchange, hbad]
  · intro hgood hparse
    simp [searchExchange, hgood, hparse]

/-- C6 witness (spec Scenario C): a 500 response with body
`"internal error"` fails with exactly
`"Perplexica API error: 500 - internal error"`; and a 200 response with an
undecodable body fails with the decode-failure message. -/
theorem one_shot_failure_mapping_witness :
    searchExchange (.response 500 { raw := "internal error", parsed := .error "Expecting value" }) =
      .apiError "Perplexica API error: 500 - internal error"
  ∧ searchExchange (.response 200 { raw := "not-json", parsed := .error "Expecting value" }) =
      .invalidJson "Invalid JSON response from Perplexica: Expecting value" := by
  constructor
  · exact (one_shot_failure_mapping 500
      { raw := "internal error", parsed := .error "Expecting value" } "x" "Expecting value").1 rfl
  · exact (one_shot_failure_mapping 200
      { raw := "not-json", parsed := .error "Expecting value" } "x" "Expecting value").2.2 rfl rfl

/-- C7: one-shot success: any 2xx response whose JSON body validates as a
`SearchResponse` returns exactly that answer text and source sequence; in
particular (spec Scenario A) the request for focus mode web with query
"capital of France" and a 200 body with message `"Paris"` and empty
sources returns `{message := "Paris", sources := []}`. -/
theorem one_shot_success (cfg : PerplexicaConfig) (status : Nat) (body : HttpBody)
    (j : Json) (res : SearchResponse) (raw : String) :
    (is2xx status = true → body.parsed = .ok j → mkSearchResponse j = some res →
      searchExchange (.response status body) = .ok res)
  ∧ (search cfg { focusMode := .webSearch, query := "capital of France" }
      (.response 200
        { raw := raw
          parsed := .ok (.obj [("message", .str "Paris"), ("sources", .arr [])]) })).outcome
      = .ok { message := "Paris", sources := [] } := by
  constructor
  · intro hgood hparse hmk
    simp [searchExchange, hgood, hparse, hmk]
  · rfl

/-- C7 witness: the general clause applied at the Scenario A input, each
hypothesis discharged by evaluation. -/
theorem one_shot_success_witness :
    searchExchange (.response 200
      { raw := "\x7b\"message\": \"Paris\", \"sources\": []\x7d"
        parsed := .ok (.obj [("message", .str "Paris"), ("sources", .arr [])]) }) =
      .ok { message := "Paris", sources := [] } :=
  (one_shot_success {} 200
    { raw := "\x7b\"message\": \"Paris\", \"sources\": []\x7d"
      parsed := .ok (.obj [("message", .str "Paris"), ("sources", .arr [])]) }
    (.obj [("message", .str "Paris"), ("sources", .arr [])])
    { message := "Paris", sources := [] } "").1 rfl rfl rfl

set_option maxHeartbeats 1600000 in
/-- Helper: key lookup on an encoded payload dict, for every key that can
be absent: the key maps to the encoded field exactly when the field is
present, and is missing from the JSON object otherwise — absent fields are
omitted entirely, never rendered as `null`. -/
theorem RequestData.encode_get (d : RequestData) :
    d.encode.get? "chatModel" = d.chatModel.map ChatModel.encode
  ∧ d.encode.get? "embeddingModel" = d.embeddingModel.map EmbeddingModel.encode
  ∧ d.encode.get? "optimizationMode" = d.optimizationMode.map (fun m => .str m.wire)
  ∧ d.encode.get? "history" = d.history.map encodeHistory
  ∧ d.encode.get? "systemInstructions" = d.systemInstructions.map Json.str
  ∧ d.encode.get? "stream" = d.stream.map Json.bool := by
  obtain ⟨cm, em, om, fm, q, hi, si, st⟩ := d
  rcases cm with _ | c <;> rcases em with _ | e <;> rcases om with _ | m <;>
    rcases hi with _ | h <;> rcases si with _ | s <;> rcases st with _ | b <;>
    exact ⟨rfl, rfl, rfl, rfl, rfl, rfl⟩

/-- C8: the body transmitted by the streaming search carries
`"stream": true` for every request, whatever the request's own `stream`
flag was (`{**dump, "stream": True}` overwrites it); and in both the
one-shot and the streaming payload, each absent field is omitted from the
JSON object entirely (its key is missing) rather than transmitted as
`null`. -/
theorem streaming_payload_forces_stream (cfg : PerplexicaConfig) (r : SearchRequest)
    (d : RequestData) :
    (search_stream_payload cfg r).get? "stream" = some (.bool true)
  ∧ d.encode.get? "chatModel" = d.chatModel.map ChatModel.encode
  ∧ d.encode.get? "embeddingModel" = d.embeddingModel.map EmbeddingModel.encode
  ∧ d.encode.get? "optimizationMode" = d.optimizationMode.map (fun m => .str m.wire)
  ∧ d.encode.get? "history" = d.history.map encodeHistory
  ∧ d.encode.get? "systemInstructions" = d.systemInstructions.map Json.str
  ∧ d.encode.get? "stream" = d.stream.map Json.bool
  ∧ (search_payload cfg r).get? "chatModel" =
      ((normalizeAlias (applyDefaults cfg r).model_dump).chatModel).map ChatModel.encode := by
  obtain ⟨h1, h2, h3, h4, h5, h6⟩ := RequestData.encode_get d
  refine ⟨?_, h1, h2, h3, h4, h5, h6, ?_⟩
  · have hs := (RequestData.encode_get
      { (applyDefaults cfg r).model_dump with stream := some true }).2.2.2.2.2
    simpa [search_stream_payload] using hs
  · exact (RequestData.encode_get (normalizeAlias (applyDefaults cfg r).model_dump)).1

/-- The effective-identifier rule exactly as C9 states it: alternate name
if present, else model identifier if present, else the empty string
(written from the spec's words, for comparison with the code's
`get_model_name`). -/
def effectiveIdentifierClaimed (name model : Option String) : String :=
  match name with
  | some s => s
  | none =>
    match model with
    | some m => m
    | none => ""

/-- The amended effective-identifier rule: alternate name if present AND
non-empty, else model identifier if present AND non-empty, else the empty
string (Python `or` treats the empty string like `None`). -/
def effectiveIdentifierAmended (name model : Option String) : String :=
  match name with
  | some s =>
    if s ≠ "" then s
    else
      match model with
      | some m => if m ≠ "" then m else ""
      | none => ""
  | none =>
    match model with
    | some m => if m ≠ "" then m else ""
    | none => ""

/-- C9 counterexample: a chat model whose alternate name is present but
empty (`name = ""`, `model = "gpt-4o-mini"`).  The claim's rule gives the
alternate name, `""`; `get_model_name` — `self.name or self.model or ""` —
gives `"gpt-4o-mini"`. -/
theorem effective_identifier_cex :
    ChatModel.get_model_name { provider := "p", model := some "gpt-4o-mini", name := some "" }
      = "gpt-4o-mini"
  ∧ effectiveIdentifierClaimed (some "") (some "gpt-4o-mini") = ""
  ∧ ("gpt-4o-mini" : String) ≠ "" := by
  refine ⟨rfl, rfl, by decide⟩

/-- C9 amended: for both selection kinds, `get_model_name` returns the
alternate name if present and non-empty, else the model identifier if
present and non-empty, else the empty string. -/
theorem effective_identifier_amended (c : ChatModel) (e : EmbeddingModel) :
    c.get_model_name = effectiveIdentifierAmended c.name c.model
  ∧ e.get_model_name = effectiveIdentifierAmended e.name e.model := by
  constructor
  · rcases hn : c.name with _ | s <;> rcases hm : c.model with _ | t <;>
      simp [ChatModel.get_model_name, effectiveIdentifierAmended, pyStrOr, hn, hm]
  · rcases hn : e.name with _ | s <;> rcases hm : e.model with _ | t <;>
      simp [EmbeddingModel.get_model_name, effectiveIdentifierAmended, pyStrOr, hn, hm]

/-- C10: the defaults block mutates the caller's request object in place:
when a field was absent, after the call the caller's own object holds the
config default there — for the model selections the very reference held by
the config (the heap is left untouched: nothing is allocated or copied) —
and a second call that reuses the same request object under any other
config keeps the first call's defaults, because the fields are no longer
`None`. -/
theorem defaults_mutate_request_in_place (h : Heap) (cfg cfg2 : ConfigObj)
    (r : SearchRequestObj) (hc : r.chatModel = none) (he : r.embeddingModel = none)
    (ho : r.optimizationMode = none) :
    (applyDefaultsObj h cfg r).1 = h
  ∧ (applyDefaultsObj h cfg r).2.chatModel = cfg.default_chat_model
  ∧ (applyDefaultsObj h cfg r).2.embeddingModel = cfg.default_embedding_model
  ∧ (applyDefaultsObj h cfg r).2.optimizationMode = some cfg.default_optimization_mode
  ∧ (applyDefaultsObj (applyDefaultsObj h cfg r).1 cfg2 (applyDefaultsObj h cfg r).2).2.chatModel =
      (match cfg.default_chat_model with
       | some i => some i
       | none => cfg2.default_chat_model)
  ∧ (applyDefaultsObj (applyDefaultsObj h cfg r).1 cfg2 (applyDefaultsObj h cfg r).2).2.optimizationMode =
      some cfg.default_optimization_mode := by
  obtain ⟨rc, re, ro⟩ := r
  subst hc he ho
  rcases hdc : cfg.default_chat_model with _ | i <;>
    rcases hde : cfg.default_embedding_model with _ | k <;>
    rcases hdc2 : cfg2.default_chat_model with _ | i2 <;>
    rcases hde2 : cfg2.default_embedding_model with _ | k2 <;>
    simp [applyDefaultsObj, hdc, hde, hdc2, hde2]

/-- C10 witness: a request with all three fields absent, resolved against
a config whose defaults are references `0` into the heap: afterwards the
caller's object holds reference `0` (the config's own selection object,
the heap untouched), and a second call under a different config (defaults
at reference `1`, optimization mode `quality`) changes nothing. -/
theorem defaults_mutate_request_in_place_witness :
    (applyDefaultsObj
      { chatCells := [{ provider := "openai", name := some "gpt-4o-mini" }]
        embCells := [{ provider := "openai", name := some "text-embedding-3-large" }] }
      { default_chat_model := some 0, default_embedding_model := some 0
        default_optimization_mode := .speed }
      { chatModel := none, embeddingModel := none, optimizationMode := none }).2.chatModel = some 0
  ∧ (applyDefaultsObj
      { chatCells := [{ provider := "openai", name := some "gpt-4o-mini" }]
        embCells := [{ provider := "openai", name := some "text-embedding-3-large" }] }
      { default_chat_model := some 0, default_embedding_model := some 0
        default_optimization_mode := .speed }
      { chatModel := none, embeddingModel := none, optimizationMode := none }).2.optimizationMode =
      some .speed
  ∧ (applyDefaultsObj
      { chatCells := [{ provider := "openai", name := some "gpt-4o-mini" }]
        embCells := [{ provider := "openai", name := some "text-embedding-3-large" }] }
      { default_chat_model := some 1, default_embedding_model := some 1
        default_optimization_mode := .quality }
      { chatModel := some 0, embeddingModel := some 0, optimizationMode := some .speed }).2.chatModel
      = some 0 := by
  have hth := defaults_mutate_request_in_place
    { chatCells := [{ provider := "openai", name := some "gpt-4o-mini" }]
      embCells := [{ provider := "openai", name := some "text-embedding-3-large" }] }
    { default_chat_model := some 0, default_embedding_model := some 0
      default_optimization_mode := .speed }
    { default_chat_model := some 1, default_embedding_model := some 1
      default_optimization_mode := .quality }
    { chatModel := none, embeddingModel := none, optimizationMode := none }
    rfl rfl rfl
  refine ⟨hth.2.1, hth.2.2.2.1, ?_⟩
  exact (defaults_mutate_request_in_place
      { chatCells := [{ provider := "openai", name := some "gpt-4o-mini" }]
        embCells := [{ provider := "openai", name := some "text-embedding-3-large" }] }
      { default_chat_model := some 0, default_embedding_model := some 0
        default_optimization_mode := .speed }
      { default_chat_model := some 1, default_embedding_model := some 1
        default_optimization_mode := .quality }
      { chatModel := none, embeddingModel := none, optimizationMode := none }
      rfl rfl rfl).2.2.2.2.1

end Perplexica
